import Mathlib

set_option maxRecDepth 8000

/-!
Verification of the request-to-handler binding pipeline of
`web_monitoring/diffing_server.py` (a Tornado diffing dispatch server).

The Python source is shallowly embedded:

* Python `dict`s (the request's `query_params`, header maps, keyword
  arguments) become association lists `List (String × α)` with
  first-match lookup.  The Python dicts always have unique keys, so
  removing a key is modelled by erasing every pair with that key,
  which coincides with `dict.pop` on unique-key lists and gives
  hypothesis-free lemmas.
* Raw HTTP bodies are byte sequences `List Nat` (each entry < 256).
* `hashlib.sha256(...).hexdigest()` is implemented bit-for-bit
  (32-bit words as `Nat` with explicit `% 2^32`).
* `bytes.decode(encoding, errors='ignore')` is modelled by a small codec
  table covering the encodings exercised here (utf-8, ascii, latin-1);
  an encoding name outside the table raises `LookupError`, as in Python.
* Exceptions (`KeyError`, `LookupError`) become `Except PyErr`.
* The network and the registered differs are environment parameters; the
  handler model additionally returns the trace of fetches and of the
  executor submission, so that properties such as "no fetch is
  attempted" and "the comparison callable is never invoked" are
  statable.
-/

namespace DiffingServer

/-! ## Python dict model -/

/-- Values that can sit in the keyword-argument dict handed to a differ:
Python strings and Python byte strings. -/
inductive Value where
  | str : String → Value
  | bytes : List Nat → Value
  deriving DecidableEq, Repr

/-- Python exceptions that the embedded code can raise. -/
inductive PyErr where
  | keyError : String → PyErr
  | lookupError : String → PyErr
  deriving DecidableEq, Repr

/-- First-match lookup in an association list: `d[k]` / `d.get(k)`. -/
def dictFind (d : List (String × α)) (k : String) : Option α :=
  match d with
  | [] => none
  | (k', v) :: rest => if k' = k then some v else dictFind rest k

/-- Remove every pair with key `k`; on unique-key dicts this is exactly
the removal performed by Python's `dict.pop`. -/
def dictErase (d : List (String × α)) (k : String) : List (String × α) :=
  match d with
  | [] => []
  | p :: rest => if p.1 = k then dictErase rest k else p :: dictErase rest k

/-- Python `d.pop(k)`: the looked-up value (if any) together with the
dict with key `k` removed. -/
def dictPop (d : List (String × α)) (k : String) :
    Option α × List (String × α) :=
  (dictFind d k, dictErase d k)

/-- Python `d.setdefault(k, v)`: insert `k ↦ v` only when `k` is absent.
New keys are appended, matching dict insertion order. -/
def dictSetdefault (d : List (String × α)) (k : String) (v : α) :
    List (String × α) :=
  match dictFind d k with
  | some _ => d
  | none => d ++ [(k, v)]

/-! ## SHA-256 (`hashlib.sha256(body).hexdigest()`) -/

/-- Truncation to a 32-bit word. -/
def w32 (n : Nat) : Nat := n % 4294967296

/-- Right rotation of a 32-bit word. -/
def rotr (x n : Nat) : Nat := w32 ((x >>> n) ||| (x <<< (32 - n)))

/-- The SHA-256 round constants. -/
def K256 : List Nat :=
  [1116352408, 1899447441, 3049323471, 3921009573, 961987163,
   1508970993, 2453635748, 2870763221, 3624381080, 310598401,
   607225278, 1426881987, 1925078388, 2162078206, 2614888103,
   3248222580, 3835390401, 4022224774, 264347078, 604807628,
   770255983, 1249150122, 1555081692, 1996064986, 2554220882,
   2821834349, 2952996808, 3210313671, 3336571891, 3584528711,
   113926993, 338241895, 666307205, 773529912, 1294757372,
   1396182291, 1695183700, 1986661051, 2177026350, 2456956037,
   2730485921, 2820302411, 3259730800, 3345764771, 3516065817,
   3600352804, 4094571909, 275423344, 430227734, 506948616,
   659060556, 883997877, 958139571, 1322822218, 1537002063,
   1747873779, 1955562222, 2024104815, 2227730452, 2361852424,
   2428436474, 2756734187, 3204031479, 3329325298]

/-- Working state of one SHA-256 compression. -/
structure SHAState where
  a : Nat
  b : Nat
  c : Nat
  d : Nat
  e : Nat
  f : Nat
  g : Nat
  h : Nat
  deriving Repr

/-- One SHA-256 compression round. -/
def shaRound (st : SHAState) (k w : Nat) : SHAState :=
  let s1 := rotr st.e 6 ^^^ rotr st.e 11 ^^^ rotr st.e 25
  let ch := (st.e &&& st.f) ^^^ ((st.e ^^^ 4294967295) &&& st.g)
  let temp1 := w32 (st.h + s1 + ch + k + w)
  let s0 := rotr st.a 2 ^^^ rotr st.a 13 ^^^ rotr st.a 22
  let maj := (st.a &&& st.b) ^^^ (st.a &&& st.c) ^^^ (st.b &&& st.c)
  let temp2 := w32 (s0 + maj)
  ⟨w32 (temp1 + temp2), st.a, st.b, st.c,
   w32 (st.d + temp1), st.e, st.f, st.g⟩

/-- Big-endian 32-bit words from a byte list (groups of four). -/
def bytesToWords : List Nat → List Nat
  | b0 :: b1 :: b2 :: b3 :: rest =>
      (((b0 * 256 + b1) * 256 + b2) * 256 + b3) :: bytesToWords rest
  | _ => []

/-- Message-schedule extension: grow the 16 chunk words to 64. -/
def extendSchedule (w0 : List Nat) : List Nat :=
  (List.range 48).foldl (fun w _ =>
    let i := w.length
    let x15 := w.getD (i - 15) 0
    let x2 := w.getD (i - 2) 0
    let s0 := rotr x15 7 ^^^ rotr x15 18 ^^^ (x15 >>> 3)
    let s1 := rotr x2 17 ^^^ rotr x2 19 ^^^ (x2 >>> 10)
    w ++ [w32 (w.getD (i - 16) 0 + s0 + w.getD (i - 7) 0 + s1)]) w0

/-- Compress one 64-byte chunk into the running hash values. -/
def sha256compress (hs : List Nat) (chunk : List Nat) : List Nat :=
  let w := extendSchedule (bytesToWords chunk)
  let init : SHAState :=
    ⟨hs.getD 0 0, hs.getD 1 0, hs.getD 2 0, hs.getD 3 0,
     hs.getD 4 0, hs.getD 5 0, hs.getD 6 0, hs.getD 7 0⟩
  let st := (List.zip K256 w).foldl
    (fun st kw => shaRound st kw.1 kw.2) init
  [w32 (hs.getD 0 0 + st.a), w32 (hs.getD 1 0 + st.b),
   w32 (hs.getD 2 0 + st.c), w32 (hs.getD 3 0 + st.d),
   w32 (hs.getD 4 0 + st.e), w32 (hs.getD 5 0 + st.f),
   w32 (hs.getD 6 0 + st.g), w32 (hs.getD 7 0 + st.h)]

/-- The 8-byte big-endian encoding of the message bit length. -/
def lenBytes (n : Nat) : List Nat :=
  [n / 72057594037927936 % 256, n / 281474976710656 % 256,
   n / 1099511627776 % 256, n / 4294967296 % 256,
   n / 16777216 % 256, n / 65536 % 256, n / 256 % 256, n % 256]

/-- SHA-256 padding: append `0x80`, zeros, and the 64-bit bit length so
the total length is a multiple of 64 bytes. -/
def sha256pad (msg : List Nat) : List Nat :=
  let L := msg.length
  let zeros := (64 - (L + 9) % 64) % 64
  msg ++ [128] ++ List.replicate zeros 0 ++ lenBytes (8 * L)

/-- Fold the compression function over the 64-byte chunks (fuel-driven
structural recursion; the fuel bounds the number of chunks). -/
def sha256chunks : Nat → List Nat → List Nat → List Nat
  | 0, _, hs => hs
  | fuel + 1, msg, hs =>
      if msg.length < 64 then hs
      else sha256chunks fuel (msg.drop 64) (sha256compress hs (msg.take 64))

/-- Lowercase hex digit for a nibble. -/
def hexDigit (n : Nat) : Char :=
  if n < 10 then Char.ofNat (48 + n) else Char.ofNat (87 + n)

/-- Eight lowercase hex digits of a 32-bit word (big-endian nibbles). -/
def word32Hex (w : Nat) : List Char :=
  [hexDigit (w / 268435456 % 16), hexDigit (w / 16777216 % 16),
   hexDigit (w / 1048576 % 16), hexDigit (w / 65536 % 16),
   hexDigit (w / 4096 % 16), hexDigit (w / 256 % 16),
   hexDigit (w / 16 % 16), hexDigit (w % 16)]

/-- Full model of `hashlib.sha256(msg).hexdigest()`. -/
def sha256hex (msg : List Nat) : String :=
  let padded := sha256pad msg
  let hs := sha256chunks (padded.length / 64 + 1) padded
    [1779033703, 3144134277, 1013904242, 2773480762, 1359893119,
     2600822924, 528734635, 1541459225]
  ⟨(hs.map word32Hex).flatten⟩

/-! ## String helpers (Python `in`, `split`, `lower`) -/

/-- Whether `sep` is a prefix of `s` (character lists). -/
def isPrefixChars : List Char → List Char → Bool
  | [], _ => true
  | _ :: _, [] => false
  | a :: as, b :: bs => a == b && isPrefixChars as bs

/-- Python `sub in s` for character lists. -/
def containsSub (s sub : List Char) : Bool :=
  match s with
  | [] => isPrefixChars sub []
  | _ :: rest => isPrefixChars sub s || containsSub rest sub

/-- Left-to-right non-overlapping split on a non-empty separator, as in
Python's `str.split(sep)`.  The fuel (instantiated with the input length
plus one) makes the recursion structural. -/
def splitCharsGo (sep : List Char) : Nat → List Char → List Char →
    List (List Char)
  | 0, s, cur => [cur.reverse ++ s]
  | fuel + 1, s, cur =>
      match s with
      | [] => [cur.reverse]
      | c :: rest =>
          if isPrefixChars sep s then
            cur.reverse :: splitCharsGo sep fuel (s.drop sep.length) []
          else
            splitCharsGo sep fuel rest (c :: cur)

/-- Python `s.split(sep)` for a non-empty separator. -/
def pySplit (s sep : String) : List String :=
  (splitCharsGo sep.data (s.data.length + 1) s.data []).map String.mk

/-- Python `sub in s` on strings. -/
def pyContains (s sub : String) : Bool := containsSub s.data sub.data

/-- ASCII lowercasing of one character. -/
def lowerChar (c : Char) : Char :=
  if 65 ≤ c.toNat && c.toNat ≤ 90 then Char.ofNat (c.toNat + 32) else c

/-- Python `s.lower()` restricted to ASCII letters, which is all the
codec-name normalisation needs. -/
def lowerString (s : String) : String := ⟨s.data.map lowerChar⟩

/-! ## Codecs (`bytes.decode(encoding, errors='ignore')`) -/

/-- Whether a byte is a UTF-8 continuation byte. -/
def contByte (c : Nat) : Bool := 128 ≤ c && c ≤ 191

/-- UTF-8 decoding with invalid sequences dropped, the behaviour of
Python's `errors='ignore'` handler.  The fuel argument (instantiated
with the list length) makes the recursion structural. -/
def utf8go : Nat → List Nat → List Char
  | 0, _ => []
  | _ + 1, [] => []
  | fuel + 1, b :: rest =>
      if b < 128 then Char.ofNat b :: utf8go fuel rest
      else if 194 ≤ b && b ≤ 223 then
        match rest with
        | c :: r =>
            if contByte c then
              Char.ofNat ((b - 192) * 64 + (c - 128)) :: utf8go fuel r
            else utf8go fuel rest
        | [] => []
      else if 224 ≤ b && b ≤ 239 then
        match rest with
        | c :: c2 :: r =>
            if contByte c && contByte c2 then
              let cp := (b - 224) * 4096 + (c - 128) * 64 + (c2 - 128)
              if 2048 ≤ cp && !(55296 ≤ cp && cp ≤ 57343) then
                Char.ofNat cp :: utf8go fuel r
              else utf8go fuel rest
            else utf8go fuel rest
        | _ => utf8go fuel rest
      else if 240 ≤ b && b ≤ 244 then
        match rest with
        | c :: c2 :: c3 :: r =>
            if contByte c && contByte c2 && contByte c3 then
              let cp := (b - 240) * 262144 + (c - 128) * 4096 +
                (c2 - 128) * 64 + (c3 - 128)
              if 65536 ≤ cp && cp ≤ 1114111 then
                Char.ofNat cp :: utf8go fuel r
              else utf8go fuel rest
            else utf8go fuel rest
        | _ => utf8go fuel rest
      else utf8go fuel rest

/-- Python `bytes.decode('utf-8', errors='ignore')`. -/
def utf8DecodeIgnore (bs : List Nat) : String := ⟨utf8go bs.length bs⟩

/-- Python `bytes.decode('latin-1')`: every byte maps to the code point
of the same value, so decoding never fails. -/
def latin1Decode (bs : List Nat) : String := ⟨bs.map Char.ofNat⟩

/-- Python `bytes.decode('ascii', errors='ignore')`: bytes ≥ 128 are
dropped. -/
def asciiDecodeIgnore (bs : List Nat) : String :=
  ⟨(bs.filter (fun b => b < 128)).map Char.ofNat⟩

/-- The slice of Python's codec registry exercised by this development
(codec names are matched case-insensitively, as in Python). -/
def lookupCodec (enc : String) : Option (List Nat → String) :=
  let n := lowerString enc
  if n = "utf-8" || n = "utf8" || n = "utf_8" || n = "u8" then
    some utf8DecodeIgnore
  else if n = "ascii" || n = "us-ascii" || n = "646" then
    some asciiDecodeIgnore
  else if n = "latin-1" || n = "latin1" || n = "latin_1" ||
      n = "iso-8859-1" || n = "iso8859-1" || n = "l1" then
    some latin1Decode
  else none

/-- Python `bs.decode(enc, errors='ignore')`: an unknown encoding name
raises `LookupError`; a known codec with `errors='ignore'` never
raises. -/
def bytesDecodeIgnore (bs : List Nat) (enc : String) : Except PyErr String :=
  match lookupCodec enc with
  | none => Except.error (PyErr.lookupError enc)
  | some dec => Except.ok (dec bs)

/-! ## HTTP responses and `_extract_encoding` -/

/-- The parts of a `tornado.httpclient.HTTPResponse` the server reads:
`res.request.url`, `res.body` and `res.headers`. -/
structure HTTPResponse where
  requestUrl : String
  body : List Nat
  headers : List (String × String)
  deriving DecidableEq, Repr

/-- Model of `_extract_encoding(headers)` (source lines 76–81):
`headers["Content-Type"]` raises `KeyError` when the header is absent;
otherwise, if `'charset=' in content_type`, the text after the last
`charset=` is returned (`content_type.split('charset=')[-1]`), else
`None`. -/
def extract_encoding (headers : List (String × String)) :
    Except PyErr (Option String) :=
  match dictFind headers "Content-Type" with
  | none => Except.error (PyErr.keyError "Content-Type")
  | some content_type =>
      if pyContains content_type "charset=" then
        Except.ok (some ((pySplit content_type "charset=").getLastD ""))
      else
        Except.ok none

/-- Python's `x or 'UTF-8'` on an optional string: `None` and the empty
string are falsy and fall through to the default. -/
def orUTF8 : Option String → String
  | none => "UTF-8"
  | some s => if s = "" then "UTF-8" else s

/-- The six reserved parameter names whose values are derived from the
fetched resources. -/
def derivedKeys : List String :=
  ["a_url", "b_url", "a_body", "b_body", "a_text", "b_text"]

/-! ## The `caller` translation layer (dependency injection) -/

/-- A differ as `caller` sees it: `func.__name__`, the ordered
parameters of `inspect.signature(func)` (each with its default, `none`
standing for `inspect._empty`, i.e. required), and the behaviour of the
call `func(**kwargs)` as a function of the keyword arguments passed
(Python itself fills in declared defaults for omitted keywords). -/
structure Differ where
  name : String
  params : List (String × Option Value)
  run : List (String × Value) → Value

/-- Lines 109–118 of `caller`: `setdefault` the six derived values into
`query_params`.  Faithfully to the source, `b_encoding` is extracted
from resource `a`'s headers (line 116), both decodes happen eagerly
(the `setdefault` argument is evaluated even when the key is present),
and header/codec exceptions propagate. -/
def supplementParams (a b : HTTPResponse)
    (query_params : List (String × Value)) :
    Except PyErr (List (String × Value)) :=
  let qp := dictSetdefault query_params "a_url" (Value.str a.requestUrl)
  let qp := dictSetdefault qp "b_url" (Value.str b.requestUrl)
  let qp := dictSetdefault qp "a_body" (Value.bytes a.body)
  let qp := dictSetdefault qp "b_body" (Value.bytes b.body)
  match extract_encoding a.headers with
  | Except.error e => Except.error e
  | Except.ok encA =>
      match extract_encoding a.headers with
      | Except.error e => Except.error e
      | Except.ok encB =>
          match bytesDecodeIgnore a.body (orUTF8 encA) with
          | Except.error e => Except.error e
          | Except.ok a_text =>
              match bytesDecodeIgnore b.body (orUTF8 encB) with
              | Except.error e => Except.error e
              | Except.ok b_text =>
                  let qp := dictSetdefault qp "a_text" (Value.str a_text)
                  let qp := dictSetdefault qp "b_text" (Value.str b_text)
                  Except.ok qp

/-- The error message of the `KeyError` raised for a missing required
parameter (lines 129–131). -/
def missingMsg (funcName paramName : String) : String :=
  funcName ++ " requires a parameter " ++ paramName ++
    " which was not provided in the query"

/-- Lines 121–131 of `caller`: walk the signature in order, binding each
declared parameter from `query_params` when present; a missing parameter
without a default raises `KeyError` with a message naming the function
and the parameter; a missing parameter with a default is skipped (Python
fills the default in at call time). -/
def bindLoop (funcName : String) (query_params : List (String × Value))
    (ps : List (String × Option Value)) (kwargs : List (String × Value)) :
    Except PyErr (List (String × Value)) :=
  match ps with
  | [] => Except.ok kwargs
  | (pname, dflt) :: rest =>
      match dictFind query_params pname with
      | some v => bindLoop funcName query_params rest (kwargs ++ [(pname, v)])
      | none =>
          match dflt with
          | none => Except.error (PyErr.keyError (missingMsg funcName pname))
          | some _ => bindLoop funcName query_params rest kwargs

/-- Model of `caller(func, a, b, **query_params)` (lines 83–132). -/
def caller (func : Differ) (a b : HTTPResponse)
    (query_params : List (String × Value)) : Except PyErr Value :=
  match supplementParams a b query_params with
  | Except.error e => Except.error e
  | Except.ok qp =>
      match bindLoop func.name qp func.params [] with
      | Except.error e => Except.error e
      | Except.ok kwargs => Except.ok (func.run kwargs)

/-! ## The request handler `DiffHandler.get` -/

/-- Observable side effects of one request: resource fetches and the
submission of the bound call to the executor. -/
inductive Event where
  | fetch : String → Event
  | invoke : String → Event
  deriving DecidableEq, Repr

/-- The handler's terminal behaviour: `send_error(status, reason)`, a
successful `self.write({...})` with the written dict, or an uncaught
Python exception (which Tornado turns into a 500). -/
inductive HandlerResult where
  | error : Nat → Option String → HandlerResult
  | success : List (String × Value) → HandlerResult
  | pyerror : PyErr → HandlerResult
  deriving DecidableEq, Repr

/-- Lines 45–47: `{k: v[-1].decode() for k, v in self.request.arguments}`
(keep the last value given for each key; the values are already decoded
to strings in this model). -/
def requestParams (arguments : List (String × List String)) :
    List (String × String) :=
  arguments.map (fun kv => (kv.1, kv.2.getLastD ""))

/-- One iteration of the hash-validation loop (lines 55–66) against the
response `res`.  Faithfully to the source, every iteration pops the
literal key `'a_hash'` (the loop variable `query_param` is unused), and
a failed pop (`KeyError`) skips validation.  Returns the updated params
and whether validation passed. -/
def hashValidateStep (res : HTTPResponse)
    (query_params : List (String × String)) :
    List (String × String) × Bool :=
  match dictFind query_params "a_hash" with
  | none => (query_params, true)
  | some expected_hash =>
      (dictErase query_params "a_hash",
       sha256hex res.body == expected_hash)

/-- Model of `DiffHandler.get(differ)` (lines 36–73).  `differs` is the
registry, `fetch` the network environment, `arguments` the parsed query
parameters (`self.request.arguments`, each key with its list of values).
The second component is the trace of fetches and of the executor
submission (the differ is invoked exactly when `caller` reaches
`func(**kwargs)`, i.e. when it returns without raising). -/
def DiffHandler_get (differs : List (String × Differ))
    (fetch : String → HTTPResponse) (differ : String)
    (arguments : List (String × List String)) :
    HandlerResult × List Event :=
  match dictFind differs differ with
  | none => (HandlerResult.error 404 none, [])
  | some func =>
      let query_params := requestParams arguments
      match dictPop query_params "a" with
      | (none, _) => (HandlerResult.pyerror (PyErr.keyError "a"), [])
      | (some a, qp1) =>
          match dictPop qp1 "b" with
          | (none, _) => (HandlerResult.pyerror (PyErr.keyError "b"), [])
          | (some b, qp2) =>
              let res_a := fetch a
              let res_b := fetch b
              let events := [Event.fetch a, Event.fetch b]
              let step_a := hashValidateStep res_a qp2
              if !step_a.2 then
                (HandlerResult.error 500
                  (some "Fetched content does not match hash."), events)
              else
                let step_b := hashValidateStep res_b step_a.1
                if !step_b.2 then
                  (HandlerResult.error 500
                    (some "Fetched content does not match hash."), events)
                else
                  match caller func res_a res_b
                    (step_b.1.map (fun kv => (kv.1, Value.str kv.2))) with
                  | Except.error e => (HandlerResult.pyerror e, events)
                  | Except.ok res =>
                      (HandlerResult.success [("diff", res)],
                       events ++ [Event.invoke func.name])

/-! ## Concrete fixtures used by witnesses and counterexamples -/

/-- A response with an empty body and a content-type without charset. -/
def emptyBodyResp : HTTPResponse :=
  { requestUrl := "http://a.example/",
    body := [],
    headers := [("Content-Type", "text/html")] }

/-- A response whose content-type declares `charset=latin-1`. -/
def latinHeaderResp : HTTPResponse :=
  { requestUrl := "http://latin.example/",
    body := [],
    headers := [("Content-Type", "text/html; charset=latin-1")] }

/-- A response whose content-type declares no charset and whose body,
`0xE9`, is `é` in latin-1 but invalid (hence ignored) in UTF-8. -/
def plainHeaderResp : HTTPResponse :=
  { requestUrl := "http://plain.example/",
    body := [233],
    headers := [("Content-Type", "text/html")] }

/-- A response with no Content-Type header at all. -/
def noHeaderResp : HTTPResponse :=
  { requestUrl := "http://nohdr.example/",
    body := [104, 105],
    headers := [] }

/-- A differ taking no parameters and returning a constant. -/
def constDiffer : Differ :=
  { name := "const",
    params := [],
    run := fun _ => Value.str "ok" }

/-- A differ declaring the single required parameter `a_url` and
returning the value bound to it. -/
def urlEcho : Differ :=
  { name := "url_echo",
    params := [("a_url", Option.none)],
    run := fun kwargs => (dictFind kwargs "a_url").getD (Value.str "") }

/-- A differ declaring the single required parameter `x` and returning
the value bound to it. -/
def needsX : Differ :=
  { name := "needs_x",
    params := [("x", Option.none)],
    run := fun kwargs => (dictFind kwargs "x").getD (Value.str "") }

/-- The supplemented parameter dict produced for two `emptyBodyResp`
fetches from the remaining request parameter `a_url=evil`. -/
def evilSupp : List (String × Value) :=
  [("a_url", Value.str "evil"),
   ("b_url", Value.str "http://a.example/"),
   ("a_body", Value.bytes []),
   ("b_body", Value.bytes []),
   ("a_text", Value.str ""),
   ("b_text", Value.str "")]

/-- The supplemented parameter dict produced for two `emptyBodyResp`
fetches from no remaining request parameters. -/
def emptySupp : List (String × Value) :=
  [("a_url", Value.str "http://a.example/"),
   ("b_url", Value.str "http://a.example/"),
   ("a_body", Value.bytes []),
   ("b_body", Value.bytes []),
   ("a_text", Value.str ""),
   ("b_text", Value.str "")]

/-- The supplemented parameter dict produced for two `emptyBodyResp`
fetches from the remaining request parameter `x=42`. -/
def xSupp : List (String × Value) :=
  [("x", Value.str "42"),
   ("a_url", Value.str "http://a.example/"),
   ("b_url", Value.str "http://a.example/"),
   ("a_body", Value.bytes []),
   ("b_body", Value.bytes []),
   ("a_text", Value.str ""),
   ("b_text", Value.str "")]

/-! ## Dictionary lemmas -/

theorem dictFind_append (d₁ d₂ : List (String × α)) (k : String) :
    dictFind (d₁ ++ d₂) k =
      (dictFind d₁ k).orElse (fun _ => dictFind d₂ k) := by
  induction d₁ with
  | nil => simp [dictFind]
  | cons p rest ih =>
      by_cases h : p.1 = k <;> simp [dictFind, h, ih]

theorem dictFind_append_left (d₁ d₂ : List (String × α)) (k : String)
    (v : α) (h : dictFind d₁ k = some v) :
    dictFind (d₁ ++ d₂) k = some v := by
  rw [dictFind_append, h]; rfl

theorem dictFind_append_right (d₁ d₂ : List (String × α)) (k : String)
    (h : dictFind d₁ k = none) :
    dictFind (d₁ ++ d₂) k = dictFind d₂ k := by
  rw [dictFind_append, h]; rfl

theorem dictFind_singleton (q k : String) (v : α) :
    dictFind [(q, v)] k = if q = k then some v else none := by
  by_cases h : q = k <;> simp [dictFind, h]

theorem dictFind_erase_ne (d : List (String × α)) (k j : String)
    (h : k ≠ j) :
    dictFind (dictErase d j) k = dictFind d k := by
  induction d with
  | nil => rfl
  | cons p rest ih =>
      by_cases hp : p.1 = j
      · simp [dictErase, hp, dictFind, ih, Ne.symm h]
      · by_cases hk : p.1 = k <;> simp [dictErase, hp, hk, dictFind, ih, h]

theorem dictFind_erase_self (d : List (String × α)) (j : String) :
    dictFind (dictErase d j) j = none := by
  induction d with
  | nil => rfl
  | cons p rest ih =>
      by_cases hp : p.1 = j <;> simp [dictErase, hp, dictFind, ih]

theorem dictFind_setdefault_ne (d : List (String × α)) (k k' : String)
    (v : α) (h : k' ≠ k) :
    dictFind (dictSetdefault d k v) k' = dictFind d k' := by
  unfold dictSetdefault
  cases hf : dictFind d k with
  | some w => rfl
  | none =>
      rw [dictFind_append]
      cases hg : dictFind d k' with
      | some w => rfl
      | none => simp [dictFind, Ne.symm h]

theorem dictFind_setdefault_present (d : List (String × α)) (k : String)
    (v w : α) (h : dictFind d k = some w) :
    dictFind (dictSetdefault d k v) k = some w := by
  unfold dictSetdefault
  rw [h]
  exact h

theorem dictFind_setdefault_absent (d : List (String × α)) (k : String)
    (v : α) (h : dictFind d k = none) :
    dictFind (dictSetdefault d k v) k = some v := by
  unfold dictSetdefault
  rw [h, dictFind_append, h]
  simp [dictFind]

theorem dictFind_setdefault_preserve (d : List (String × α)) (k k' : String)
    (v w : α) (h : dictFind d k' = some w) :
    dictFind (dictSetdefault d k v) k' = some w := by
  by_cases hk : k' = k
  · subst hk; exact dictFind_setdefault_present d k' v w h
  · rw [dictFind_setdefault_ne d k k' v hk]; exact h

theorem dictFind_mapValues (d : List (String × α)) (f : α → β) (k : String) :
    dictFind (d.map (fun kv => (kv.1, f kv.2))) k = (dictFind d k).map f := by
  induction d with
  | nil => rfl
  | cons p rest ih =>
      by_cases h : p.1 = k <;> simp [dictFind, h, ih]

/-! ## SHA-256 sanity checks against known digests -/

theorem sha256hex_empty :
    sha256hex [] =
      "e3b0c44298fc1c149afbf4c8996fb92427ae41e4649b934ca495991b7852b855" := by
  rfl

theorem sha256hex_abc :
    sha256hex [97, 98, 99] =
      "ba7816bf8f01cfea414140de5dae2223b00361a396177a9cb410ff61f20015ad" := by
  rfl

/-! ## Hash-validation step lemmas -/

theorem hashValidateStep_a_hash_none (res : HTTPResponse)
    (qp : List (String × String)) :
    dictFind (hashValidateStep res qp).1 "a_hash" = none := by
  unfold hashValidateStep
  cases h : dictFind qp "a_hash" with
  | none => exact h
  | some s => exact dictFind_erase_self qp "a_hash"

theorem hashValidateStep_find_ne (res : HTTPResponse)
    (qp : List (String × String)) (k : String) (h : k ≠ "a_hash") :
    dictFind (hashValidateStep res qp).1 k = dictFind qp k := by
  unfold hashValidateStep
  cases hf : dictFind qp "a_hash" with
  | none => rfl
  | some s => exact dictFind_erase_ne qp k "a_hash" h

theorem hashValidateStep_skip (res : HTTPResponse)
    (qp : List (String × String)) (h : dictFind qp "a_hash" = none) :
    hashValidateStep res qp = (qp, true) := by
  unfold hashValidateStep
  rw [h]

/-! ## `supplementParams` lemmas -/

theorem supplementParams_ok_shape (a b : HTTPResponse)
    (qp qp' : List (String × Value))
    (hs : supplementParams a b qp = Except.ok qp') :
    ∃ ta tb,
      qp' =
        dictSetdefault
          (dictSetdefault
            (dictSetdefault
              (dictSetdefault
                (dictSetdefault
                  (dictSetdefault qp "a_url" (Value.str a.requestUrl))
                  "b_url" (Value.str b.requestUrl))
                "a_body" (Value.bytes a.body))
              "b_body" (Value.bytes b.body))
            "a_text" (Value.str ta))
          "b_text" (Value.str tb) := by
  unfold supplementParams at hs
  cases hE : extract_encoding a.headers with
  | error e => simp [hE] at hs
  | ok encA =>
      simp only [hE] at hs
      cases hDa : bytesDecodeIgnore a.body (orUTF8 encA) with
      | error e => simp [hDa] at hs
      | ok ta =>
          simp only [hDa] at hs
          cases hDb : bytesDecodeIgnore b.body (orUTF8 encA) with
          | error e => simp [hDb] at hs
          | ok tb =>
              simp only [hDb, Except.ok.injEq] at hs
              exact ⟨ta, tb, hs.symm⟩

theorem supplementParams_preserve (a b : HTTPResponse)
    (qp qp' : List (String × Value)) (k : String) (v : Value)
    (hv : dictFind qp k = some v)
    (hs : supplementParams a b qp = Except.ok qp') :
    dictFind qp' k = some v := by
  obtain ⟨ta, tb, rfl⟩ := supplementParams_ok_shape a b qp qp' hs
  exact dictFind_setdefault_preserve _ _ _ _ _
    (dictFind_setdefault_preserve _ _ _ _ _
      (dictFind_setdefault_preserve _ _ _ _ _
        (dictFind_setdefault_preserve _ _ _ _ _
          (dictFind_setdefault_preserve _ _ _ _ _
            (dictFind_setdefault_preserve _ _ _ _ _ hv)))))

theorem supplementParams_find_nonderived (a b : HTTPResponse)
    (qp qp' : List (String × Value)) (k : String)
    (hk : k ∉ derivedKeys)
    (hs : supplementParams a b qp = Except.ok qp') :
    dictFind qp' k = dictFind qp k := by
  obtain ⟨ta, tb, rfl⟩ := supplementParams_ok_shape a b qp qp' hs
  simp only [derivedKeys, List.mem_cons, List.mem_singleton,
    List.not_mem_nil, or_false] at hk
  push_neg at hk
  obtain ⟨h1, h2, h3, h4, h5, h6⟩ := hk
  rw [dictFind_setdefault_ne _ _ _ _ h6, dictFind_setdefault_ne _ _ _ _ h5,
    dictFind_setdefault_ne _ _ _ _ h4, dictFind_setdefault_ne _ _ _ _ h3,
    dictFind_setdefault_ne _ _ _ _ h2, dictFind_setdefault_ne _ _ _ _ h1]

/-! ## `bindLoop` equations and lemmas -/

theorem bindLoop_nil (fn : String) (qp : List (String × Value))
    (kwargs : List (String × Value)) :
    bindLoop fn qp [] kwargs = Except.ok kwargs := rfl

theorem bindLoop_cons (fn : String) (qp : List (String × Value))
    (q : String) (d : Option Value) (rest : List (String × Option Value))
    (kwargs : List (String × Value)) :
    bindLoop fn qp ((q, d) :: rest) kwargs =
      match dictFind qp q with
      | some v => bindLoop fn qp rest (kwargs ++ [(q, v)])
      | none =>
          match d with
          | none => Except.error (PyErr.keyError (missingMsg fn q))
          | some _ => bindLoop fn qp rest kwargs := rfl

theorem bindLoop_found (fn : String) (qp : List (String × Value))
    (q : String) (d : Option Value) (rest : List (String × Option Value))
    (kwargs : List (String × Value)) (v : Value)
    (hq : dictFind qp q = some v) :
    bindLoop fn qp ((q, d) :: rest) kwargs =
      bindLoop fn qp rest (kwargs ++ [(q, v)]) := by
  rw [bindLoop_cons, hq]

theorem bindLoop_absent_required (fn : String) (qp : List (String × Value))
    (q : String) (rest : List (String × Option Value))
    (kwargs : List (String × Value)) (hq : dictFind qp q = none) :
    bindLoop fn qp ((q, Option.none) :: rest) kwargs =
      Except.error (PyErr.keyError (missingMsg fn q)) := by
  rw [bindLoop_cons, hq]

theorem bindLoop_absent_default (fn : String) (qp : List (String × Value))
    (q : String) (dv : Value) (rest : List (String × Option Value))
    (kwargs : List (String × Value)) (hq : dictFind qp q = none) :
    bindLoop fn qp ((q, some dv) :: rest) kwargs =
      bindLoop fn qp rest kwargs := by
  rw [bindLoop_cons, hq]

theorem bindLoop_acc_preserve (fn : String) (qp : List (String × Value))
    (ps : List (String × Option Value)) :
    ∀ (acc kwargs : List (String × Value)) (p : String) (v : Value),
      dictFind acc p = some v →
      bindLoop fn qp ps acc = Except.ok kwargs →
      dictFind kwargs p = some v := by
  induction ps with
  | nil =>
      intro acc kwargs p v hacc h
      rw [bindLoop_nil] at h
      cases h
      exact hacc
  | cons pd rest ih =>
      intro acc kwargs p v hacc h
      obtain ⟨q, d⟩ := pd
      cases hq : dictFind qp q with
      | some w =>
          rw [bindLoop_found fn qp q d rest acc w hq] at h
          exact ih _ _ _ _ (dictFind_append_left _ _ _ _ hacc) h
      | none =>
          cases d with
          | none => rw [bindLoop_absent_required fn qp q rest acc hq] at h; cases h
          | some dv =>
              rw [bindLoop_absent_default fn qp q dv rest acc hq] at h
              exact ih _ _ _ _ hacc h

theorem bindLoop_binds (fn : String) (qp : List (String × Value))
    (ps : List (String × Option Value)) :
    ∀ (acc kwargs : List (String × Value)) (p : String) (v : Value),
      dictFind acc p = none →
      p ∈ ps.map Prod.fst →
      dictFind qp p = some v →
      bindLoop fn qp ps acc = Except.ok kwargs →
      dictFind kwargs p = some v := by
  induction ps with
  | nil => intro acc kwargs p v _ hmem _ _; simp at hmem
  | cons pd rest ih =>
      intro acc kwargs p v hacc hmem hqp h
      obtain ⟨q, d⟩ := pd
      by_cases hpq : q = p
      · subst hpq
        rw [bindLoop_found fn qp q d rest acc v hqp] at h
        refine bindLoop_acc_preserve fn qp rest _ _ _ _ ?_ h
        rw [dictFind_append_right _ _ _ hacc, dictFind_singleton]
        simp
      · cases hq : dictFind qp q with
        | some w =>
            rw [bindLoop_found fn qp q d rest acc w hq] at h
            refine ih _ _ _ _ ?_ ?_ hqp h
            · rw [dictFind_append_right _ _ _ hacc, dictFind_singleton]
              simp [hpq]
            · simpa [Ne.symm hpq] using hmem
        | none =>
            cases d with
            | none =>
                rw [bindLoop_absent_required fn qp q rest acc hq] at h
                cases h
            | some dv =>
                rw [bindLoop_absent_default fn qp q dv rest acc hq] at h
                exact ih _ _ _ _ hacc (by simpa [Ne.symm hpq] using hmem) hqp h

theorem bindLoop_ok (fn : String) (qp : List (String × Value))
    (ps : List (String × Option Value))
    (hreq : ∀ p, (p, (Option.none : Option Value)) ∈ ps →
      (dictFind qp p).isSome = true) :
    ∀ acc, ∃ kwargs, bindLoop fn qp ps acc = Except.ok kwargs := by
  induction ps with
  | nil => intro acc; exact ⟨acc, rfl⟩
  | cons pd rest ih =>
      intro acc
      obtain ⟨q, d⟩ := pd
      have hrest : ∀ p, (p, (Option.none : Option Value)) ∈ rest →
          (dictFind qp p).isSome = true :=
        fun p hp => hreq p (List.mem_cons_of_mem _ hp)
      cases hq : dictFind qp q with
      | some w =>
          obtain ⟨kwargs, hk⟩ := ih hrest (acc ++ [(q, w)])
          exact ⟨kwargs, by rw [bindLoop_found fn qp q d rest acc w hq]; exact hk⟩
      | none =>
          cases d with
          | none =>
              have := hreq q (List.mem_cons_self _ _)
              rw [hq] at this
              cases this
          | some dv =>
              obtain ⟨kwargs, hk⟩ := ih hrest acc
              exact ⟨kwargs,
                by rw [bindLoop_absent_default fn qp q dv rest acc hq]; exact hk⟩

theorem bindLoop_missing (fn : String) (qp : List (String × Value))
    (x : String) (post : List (String × Option Value)) :
    ∀ (pre : List (String × Option Value)) (acc : List (String × Value)),
      dictFind qp x = none →
      (∀ pd ∈ pre, pd.2 = Option.none → (dictFind qp pd.1).isSome = true) →
      bindLoop fn qp (pre ++ (x, Option.none) :: post) acc =
        Except.error (PyErr.keyError (missingMsg fn x)) := by
  intro pre
  induction pre with
  | nil =>
      intro acc hx _
      rw [List.nil_append]
      exact bindLoop_absent_required fn qp x post acc hx
  | cons pd rest ih =>
      intro acc hx hpre
      obtain ⟨q, d⟩ := pd
      rw [List.cons_append]
      cases hq : dictFind qp q with
      | some w =>
          rw [bindLoop_found fn qp q d _ acc w hq]
          exact ih _ hx (fun pd hm hd => hpre pd (List.mem_cons_of_mem _ hm) hd)
      | none =>
          cases d with
          | none =>
              have := hpre (q, Option.none) (List.mem_cons_self _ _) rfl
              rw [hq] at this
              cases this
          | some dv =>
              rw [bindLoop_absent_default fn qp q dv _ acc hq]
              exact ih _ hx
                (fun pd hm hd => hpre pd (List.mem_cons_of_mem _ hm) hd)

theorem supplementParams_texts (a b : HTTPResponse)
    (qp : List (String × Value)) (ta tb : String)
    (hA : dictFind qp "a_text" = none) (hB : dictFind qp "b_text" = none) :
    dictFind
        (dictSetdefault
          (dictSetdefault
            (dictSetdefault
              (dictSetdefault
                (dictSetdefault
                  (dictSetdefault qp "a_url" (Value.str a.requestUrl))
                  "b_url" (Value.str b.requestUrl))
                "a_body" (Value.bytes a.body))
              "b_body" (Value.bytes b.body))
            "a_text" (Value.str ta))
          "b_text" (Value.str tb)) "a_text" = some (Value.str ta) ∧
    dictFind
        (dictSetdefault
          (dictSetdefault
            (dictSetdefault
              (dictSetdefault
                (dictSetdefault
                  (dictSetdefault qp "a_url" (Value.str a.requestUrl))
                  "b_url" (Value.str b.requestUrl))
                "a_body" (Value.bytes a.body))
              "b_body" (Value.bytes b.body))
            "a_text" (Value.str ta))
          "b_text" (Value.str tb)) "b_text" = some (Value.str tb) := by
  have ha4 : dictFind
      (dictSetdefault
        (dictSetdefault
          (dictSetdefault
            (dictSetdefault qp "a_url" (Value.str a.requestUrl))
            "b_url" (Value.str b.requestUrl))
          "a_body" (Value.bytes a.body))
        "b_body" (Value.bytes b.body)) "a_text" = none := by
    rw [dictFind_setdefault_ne _ _ _ _ (by decide),
      dictFind_setdefault_ne _ _ _ _ (by decide),
      dictFind_setdefault_ne _ _ _ _ (by decide),
      dictFind_setdefault_ne _ _ _ _ (by decide)]
    exact hA
  have hb5 : dictFind
      (dictSetdefault
        (dictSetdefault
          (dictSetdefault
            (dictSetdefault
              (dictSetdefault qp "a_url" (Value.str a.requestUrl))
              "b_url" (Value.str b.requestUrl))
            "a_body" (Value.bytes a.body))
          "b_body" (Value.bytes b.body))
        "a_text" (Value.str ta)) "b_text" = none := by
    rw [dictFind_setdefault_ne _ _ _ _ (by decide),
      dictFind_setdefault_ne _ _ _ _ (by decide),
      dictFind_setdefault_ne _ _ _ _ (by decide),
      dictFind_setdefault_ne _ _ _ _ (by decide),
      dictFind_setdefault_ne _ _ _ _ (by decide)]
    exact hB
  constructor
  · rw [dictFind_setdefault_ne _ _ _ _ (by decide)]
    exact dictFind_setdefault_absent _ _ _ ha4
  · exact dictFind_setdefault_absent _ _ _ hb5

/-! ## Claims -/

/-- C1: the spec says a request whose `b_hash` does not match the
SHA-256 hex digest of resource `b`'s fetched body fails with an error
response and never invokes the comparison callable.  The code violates
this: the validation loop pops the literal key `'a_hash'` in both
iterations (the loop variable `query_param` of
`zip(('a_hash', 'b_hash'), (res_a, res_b))` is unused), so `b_hash` is
never compared.  At the concrete failing input below — `b_hash=0`,
which is not the digest of the fetched empty body — the handler
responds with success, sets `diff`, and submits the comparison to the
executor. -/
theorem C1_b_hash_mismatch_ignored :
    sha256hex emptyBodyResp.body ≠ "0" ∧
    DiffHandler_get [("const", constDiffer)] (fun _ => emptyBodyResp)
        "const"
        [("a", ["http://a.example/"]), ("b", ["http://b.example/"]),
         ("b_hash", ["0"])] =
      (HandlerResult.success [("diff", Value.str "ok")],
       [Event.fetch "http://a.example/", Event.fetch "http://b.example/",
        Event.invoke "const"]) :=
  ⟨by decide, rfl⟩

/-- C2: the spec says `b_text` is decoded using the charset declared in
resource `b`'s own content-type header, defaulting to UTF-8 when `b`
carries none, independently of resource `a`.  The code violates this:
line 116 reads `a.headers` for `b_encoding`.  Concretely, with `a`
declaring `charset=latin-1` and `b` carrying no charset, `b`'s body
`0xE9` is decoded as latin-1 `é`, whereas the claimed UTF-8 default
would have ignored the invalid byte and produced the empty string. -/
theorem C2_b_text_decoded_with_a_charset :
    extract_encoding plainHeaderResp.headers = Except.ok none ∧
    extract_encoding latinHeaderResp.headers =
      Except.ok (some "latin-1") ∧
    (∃ qp, supplementParams latinHeaderResp plainHeaderResp [] =
        Except.ok qp ∧
      dictFind qp "b_text" = some (Value.str "é")) ∧
    utf8DecodeIgnore plainHeaderResp.body = "" :=
  ⟨rfl, rfl, ⟨_, rfl, rfl⟩, rfl⟩

/-- C3 counterexample: the claim says the derived value takes precedence
over a same-named request parameter.  With the request parameter
`a_url=evil` and a fetch whose request URL is `http://a.example/`, the
binder hands the differ `evil`, not the derived URL: `setdefault` keeps
the request parameter. -/
theorem C3_counterexample :
    caller urlEcho emptyBodyResp emptyBodyResp
        [("a_url", Value.str "evil")] = Except.ok (Value.str "evil") ∧
    caller urlEcho emptyBodyResp emptyBodyResp [] =
      Except.ok (Value.str "http://a.example/") ∧
    ("evil" : String) ≠ "http://a.example/" :=
  ⟨rfl, rfl, by decide⟩

/-- C3 (amended): request parameters take precedence over derived
values — for every declared parameter name matching a derived-value key,
when a remaining request parameter of the same name is present, the
supplemented dict keeps the request parameter's value and the Argument
Binder binds that value; the derived value is used only when no
same-named request parameter exists. -/
theorem C3_request_params_beat_derived (a b : HTTPResponse)
    (qp qp' : List (String × Value)) (k : String) (v : Value)
    (_hk : k ∈ derivedKeys) (hv : dictFind qp k = some v)
    (hs : supplementParams a b qp = Except.ok qp') :
    dictFind qp' k = some v ∧
    ∀ (fn : String) (ps : List (String × Option Value))
      (kwargs : List (String × Value)),
      k ∈ ps.map Prod.fst →
      bindLoop fn qp' ps [] = Except.ok kwargs →
      dictFind kwargs k = some v := by
  have h1 := supplementParams_preserve a b qp qp' k v hv hs
  exact ⟨h1, fun fn ps kwargs hmem hbind =>
    bindLoop_binds fn qp' ps [] kwargs k v rfl hmem h1 hbind⟩

/-- C3 witness: the amended claim applied to the concrete input of the
counterexample. -/
theorem C3_request_params_beat_derived_witness :
    dictFind evilSupp "a_url" = some (Value.str "evil") ∧
    dictFind [("a_url", Value.str "evil")] "a_url" =
      some (Value.str "evil") :=
  ⟨(C3_request_params_beat_derived emptyBodyResp emptyBodyResp
      [("a_url", Value.str "evil")] evilSupp "a_url" (Value.str "evil")
      (by decide) rfl rfl).1,
   rfl⟩

/-- C4 counterexample: the claim says hash validation is
case-insensitive.  The uppercase form of the digest of the fetched
(empty) body is rejected with the 500 error, although it equals the
digest up to ASCII letter case. -/
theorem C4_counterexample :
    lowerString
        "E3B0C44298FC1C149AFBF4C8996FB92427AE41E4649B934CA495991B7852B855" =
      sha256hex emptyBodyResp.body ∧
    DiffHandler_get [("const", constDiffer)] (fun _ => emptyBodyResp)
        "const"
        [("a", ["u"]), ("b", ["v"]),
         ("a_hash",
          ["E3B0C44298FC1C149AFBF4C8996FB92427AE41E4649B934CA495991B7852B855"])] =
      (HandlerResult.error 500
        (some "Fetched content does not match hash."),
       [Event.fetch "u", Event.fetch "v"]) :=
  ⟨rfl, rfl⟩

/-- C4 (amended): the executed validation step compares the supplied
`a_hash` against the lowercase SHA-256 hex digest of the resource's raw
bytes by exact, case-sensitive string equality — it passes exactly when
the supplied string equals the lowercase digest. -/
theorem C4_exact_hash_compare (res : HTTPResponse)
    (qp : List (String × String)) (s : String)
    (h : dictFind qp "a_hash" = some s) :
    (hashValidateStep res qp).2 = (sha256hex res.body == s) := by
  unfold hashValidateStep
  rw [h]

/-- C4 witness: the amended claim applied to a concrete matching
lowercase digest. -/
theorem C4_exact_hash_compare_witness :
    dictFind
        [("a_hash",
          "e3b0c44298fc1c149afbf4c8996fb92427ae41e4649b934ca495991b7852b855")]
        "a_hash" =
      some
        "e3b0c44298fc1c149afbf4c8996fb92427ae41e4649b934ca495991b7852b855" ∧
    (hashValidateStep emptyBodyResp
        [("a_hash",
          "e3b0c44298fc1c149afbf4c8996fb92427ae41e4649b934ca495991b7852b855")]).2 =
      (sha256hex emptyBodyResp.body ==
        "e3b0c44298fc1c149afbf4c8996fb92427ae41e4649b934ca495991b7852b855") :=
  ⟨rfl,
   C4_exact_hash_compare emptyBodyResp
     [("a_hash",
       "e3b0c44298fc1c149afbf4c8996fb92427ae41e4649b934ca495991b7852b855")]
     "e3b0c44298fc1c149afbf4c8996fb92427ae41e4649b934ca495991b7852b855"
     rfl⟩

/-- C5 counterexample: the claim says a resource with an absent
content-type header still gets its text decoded with the UTF-8 default
rather than making the binder raise.  The code instead raises `KeyError`
from `headers["Content-Type"]`, so the derived-values phase fails and no
text value is produced. -/
theorem C5_counterexample :
    noHeaderResp.headers = [] ∧
    supplementParams noHeaderResp noHeaderResp [] =
      Except.error (PyErr.keyError "Content-Type") :=
  ⟨rfl, rfl⟩

/-- C5 (amended): when resource `a`'s content-type header is present but
carries no `charset=` parameter, both derived text values are decoded
with the UTF-8 default and `errors='ignore'`, so the binder does not
raise (because of the line-116 defect, the header consulted for both
texts is resource `a`'s; an absent content-type header instead raises
`KeyError`). -/
theorem C5_utf8_default_when_no_charset (a b : HTTPResponse) (ct : String)
    (qp : List (String × Value))
    (hct : dictFind a.headers "Content-Type" = some ct)
    (hnocs : pyContains ct "charset=" = false)
    (hA : dictFind qp "a_text" = none) (hB : dictFind qp "b_text" = none) :
    ∃ qp', supplementParams a b qp = Except.ok qp' ∧
      dictFind qp' "a_text" = some (Value.str (utf8DecodeIgnore a.body)) ∧
      dictFind qp' "b_text" = some (Value.str (utf8DecodeIgnore b.body)) := by
  have hE : extract_encoding a.headers = Except.ok none := by
    simp [extract_encoding, hct, hnocs]
  have hsp : supplementParams a b qp = Except.ok
      (dictSetdefault
        (dictSetdefault
          (dictSetdefault
            (dictSetdefault
              (dictSetdefault
                (dictSetdefault qp "a_url" (Value.str a.requestUrl))
                "b_url" (Value.str b.requestUrl))
              "a_body" (Value.bytes a.body))
            "b_body" (Value.bytes b.body))
          "a_text" (Value.str (utf8DecodeIgnore a.body)))
        "b_text" (Value.str (utf8DecodeIgnore b.body))) := by
    unfold supplementParams
    rw [hE]
    rfl
  obtain ⟨h1, h2⟩ := supplementParams_texts a b qp
    (utf8DecodeIgnore a.body) (utf8DecodeIgnore b.body) hA hB
  exact ⟨_, hsp, h1, h2⟩

/-- C5 witness: the amended claim applied to two concrete resources
whose shared `a`-side content-type is `text/html` (no charset). -/
theorem C5_utf8_default_witness :
    dictFind emptyBodyResp.headers "Content-Type" = some "text/html" ∧
    ∃ qp', supplementParams emptyBodyResp plainHeaderResp [] =
        Except.ok qp' ∧
      dictFind qp' "a_text" =
        some (Value.str (utf8DecodeIgnore emptyBodyResp.body)) ∧
      dictFind qp' "b_text" =
        some (Value.str (utf8DecodeIgnore plainHeaderResp.body)) :=
  ⟨rfl,
   C5_utf8_default_when_no_charset emptyBodyResp plainHeaderResp
     "text/html" [] rfl rfl rfl rfl⟩

/-- C7: a request naming a comparison that is not in the registry is
answered with the 404 error before anything else happens: no fetch is
attempted and the trace of side effects is empty. -/
theorem C7_unknown_comparison_404_no_fetch
    (differs : List (String × Differ)) (fetch : String → HTTPResponse)
    (dname : String) (arguments : List (String × List String))
    (h : dictFind differs dname = none) :
    DiffHandler_get differs fetch dname arguments =
      (HandlerResult.error 404 none, []) := by
  unfold DiffHandler_get
  rw [h]

/-- C7 witness: the empty registry at a concrete request. -/
theorem C7_unknown_comparison_404_no_fetch_witness :
    dictFind ([] : List (String × Differ)) "missing" = none ∧
    DiffHandler_get [] (fun _ => emptyBodyResp) "missing"
        [("a", ["u"]), ("b", ["v"])] =
      (HandlerResult.error 404 none, []) :=
  ⟨rfl,
   C7_unknown_comparison_404_no_fetch [] (fun _ => emptyBodyResp)
     "missing" [("a", ["u"]), ("b", ["v"])] rfl⟩

/-- C9: the pipeline is deterministic.  The embedded `caller` depends on
the fetched resources only through their URL, body and header fields,
and the handler depends on the network only through the fetch function,
so two runs over identical resources and identical remaining parameters
(with the same, necessarily deterministic, embedded callables) return
the same result. -/
theorem C9_deterministic_pipeline (func : Differ)
    (a₁ a₂ b₁ b₂ : HTTPResponse) (qp : List (String × Value))
    (differs : List (String × Differ))
    (fetch₁ fetch₂ : String → HTTPResponse)
    (dname : String) (arguments : List (String × List String))
    (ha : a₁.requestUrl = a₂.requestUrl ∧ a₁.body = a₂.body ∧
      a₁.headers = a₂.headers)
    (hb : b₁.requestUrl = b₂.requestUrl ∧ b₁.body = b₂.body ∧
      b₁.headers = b₂.headers)
    (hf : ∀ u, fetch₁ u = fetch₂ u) :
    caller func a₁ b₁ qp = caller func a₂ b₂ qp ∧
    DiffHandler_get differs fetch₁ dname arguments =
      DiffHandler_get differs fetch₂ dname arguments := by
  have ha' : a₁ = a₂ := by
    obtain ⟨h1, h2, h3⟩ := ha
    cases a₁; cases a₂; simp_all
  have hb' : b₁ = b₂ := by
    obtain ⟨h1, h2, h3⟩ := hb
    cases b₁; cases b₂; simp_all
  rw [ha', hb', show fetch₁ = fetch₂ from funext hf]
  exact ⟨rfl, rfl⟩

/-- C6: for a comparison callable declaring a required parameter `x`
(no default) that is neither a derived-value key nor present in the
remaining request parameters — and whose earlier required parameters are
all satisfiable, so that the walk of the signature reaches `x` — the
call fails with a `KeyError` whose message names both the comparison
function and `x`; for the same callable with `x` supplied as a request
parameter (and every required parameter satisfiable), binding succeeds
and the callable receives exactly the supplied value for `x`. -/
theorem C6_missing_argument_error (func : Differ) (a b : HTTPResponse)
    (x : String) (v : String)
    (pre post : List (String × Option Value))
    (hsig : func.params = pre ++ (x, Option.none) :: post)
    (hxd : x ∉ derivedKeys)
    (qp₁ qp₁' : List (String × Value))
    (hx₁ : dictFind qp₁ x = none)
    (hs₁ : supplementParams a b qp₁ = Except.ok qp₁')
    (hpre₁ : ∀ pd ∈ pre, pd.2 = Option.none →
      (dictFind qp₁' pd.1).isSome = true)
    (qp₂ qp₂' : List (String × Value))
    (hx₂ : dictFind qp₂ x = some (Value.str v))
    (hs₂ : supplementParams a b qp₂ = Except.ok qp₂')
    (hall₂ : ∀ p, (p, (Option.none : Option Value)) ∈ func.params →
      (dictFind qp₂' p).isSome = true) :
    caller func a b qp₁ =
      Except.error (PyErr.keyError (missingMsg func.name x)) ∧
    ∃ kwargs, bindLoop func.name qp₂' func.params [] = Except.ok kwargs ∧
      dictFind kwargs x = some (Value.str v) ∧
      caller func a b qp₂ = Except.ok (func.run kwargs) := by
  constructor
  · have hx' : dictFind qp₁' x = none := by
      rw [supplementParams_find_nonderived a b qp₁ qp₁' x hxd hs₁]
      exact hx₁
    have hbind : bindLoop func.name qp₁' func.params [] =
        Except.error (PyErr.keyError (missingMsg func.name x)) := by
      rw [hsig]
      exact bindLoop_missing func.name qp₁' x post pre [] hx' hpre₁
    unfold caller
    rw [hs₁]
    simp only [hbind]
  · obtain ⟨kwargs, hk⟩ := bindLoop_ok func.name qp₂' func.params hall₂ []
    have hvx : dictFind qp₂' x = some (Value.str v) :=
      supplementParams_preserve a b qp₂ qp₂' x _ hx₂ hs₂
    have hmem : x ∈ func.params.map Prod.fst := by
      rw [hsig]; simp
    refine ⟨kwargs, hk,
      bindLoop_binds func.name qp₂' func.params [] kwargs x _ rfl hmem hvx hk,
      ?_⟩
    unfold caller
    rw [hs₂]
    simp only [hk]

/-- C6 witness: the differ `needs_x` with `x` missing, then supplied as
`x=42`. -/
theorem C6_missing_argument_error_witness :
    caller needsX emptyBodyResp emptyBodyResp [] =
      Except.error (PyErr.keyError (missingMsg "needs_x" "x")) ∧
    ∃ kwargs, bindLoop "needs_x" xSupp needsX.params [] =
        Except.ok kwargs ∧
      dictFind kwargs "x" = some (Value.str "42") ∧
      caller needsX emptyBodyResp emptyBodyResp [("x", Value.str "42")] =
        Except.ok (needsX.run kwargs) :=
  C6_missing_argument_error needsX emptyBodyResp emptyBodyResp "x" "42"
    [] [] rfl (by decide) [] emptySupp rfl rfl
    (fun pd hm _ => absurd hm (List.not_mem_nil pd))
    [("x", Value.str "42")] xSupp rfl rfl
    (by
      intro p hp
      simp only [needsX, List.mem_singleton, Prod.mk.injEq] at hp
      rw [hp.1]
      rfl)

/-- Helper for C8: every handler outcome is either a success writing
exactly the single-key dict `{'diff': result}`, or a `send_error`, or an
uncaught exception; in particular no error outcome carries `diff`. -/
theorem DiffHandler_get_cases (differs : List (String × Differ))
    (fetch : String → HTTPResponse) (dname : String)
    (arguments : List (String × List String)) :
    (∃ w tr, DiffHandler_get differs fetch dname arguments =
      (HandlerResult.success [("diff", w)], tr)) ∨
    (∃ st reason tr, DiffHandler_get differs fetch dname arguments =
      (HandlerResult.error st reason, tr)) ∨
    (∃ e tr, DiffHandler_get differs fetch dname arguments =
      (HandlerResult.pyerror e, tr)) := by
  unfold DiffHandler_get
  cases hfd : dictFind differs dname with
  | none => exact Or.inr (Or.inl ⟨404, none, [], rfl⟩)
  | some func =>
      dsimp only [dictPop]
      cases hA : dictFind (requestParams arguments) "a" with
      | none => exact Or.inr (Or.inr ⟨PyErr.keyError "a", [], rfl⟩)
      | some a =>
          dsimp only
          cases hB : dictFind (dictErase (requestParams arguments) "a")
              "b" with
          | none => exact Or.inr (Or.inr ⟨PyErr.keyError "b", [], rfl⟩)
          | some b =>
              dsimp only
              cases hsa : (hashValidateStep (fetch a)
                  (dictErase (dictErase (requestParams arguments) "a")
                    "b")).2 with
              | false =>
                  exact Or.inr (Or.inl ⟨500,
                    some "Fetched content does not match hash.",
                    [Event.fetch a, Event.fetch b], rfl⟩)
              | true =>
                  cases hsb : (hashValidateStep (fetch b)
                      (hashValidateStep (fetch a)
                        (dictErase (dictErase (requestParams arguments)
                          "a") "b")).1).2 with
                  | false =>
                      exact Or.inr (Or.inl ⟨500,
                        some "Fetched content does not match hash.",
                        [Event.fetch a, Event.fetch b], rfl⟩)
                  | true =>
                      cases hc : caller func (fetch a) (fetch b)
                          (((hashValidateStep (fetch b)
                            (hashValidateStep (fetch a)
                              (dictErase (dictErase
                                (requestParams arguments) "a") "b")).1).1).map
                            (fun kv => (kv.1, Value.str kv.2))) with
                      | error e =>
                          exact Or.inr (Or.inr ⟨e,
                            [Event.fetch a, Event.fetch b], rfl⟩)
                      | ok res =>
                          exact Or.inl ⟨res,
                            [Event.fetch a, Event.fetch b,
                             Event.invoke func.name], rfl⟩

/-- C8: for a valid request — registered comparison, `a` and `b`
present, no hash parameter supplied — whose `caller` invocation returns
normally, the handler responds with success and writes exactly the
single-key JSON object mapped from `{'diff': result}`; and every
possible outcome of the handler is either such a success or an error
that sets no `diff`. -/
theorem C8_success_writes_diff (differs : List (String × Differ))
    (fetch : String → HTTPResponse) (dname : String)
    (arguments : List (String × List String)) (func : Differ)
    (aUrl bUrl : String) (r : Value)
    (hfunc : dictFind differs dname = some func)
    (ha : dictFind (requestParams arguments) "a" = some aUrl)
    (hb : dictFind (dictErase (requestParams arguments) "a") "b" =
      some bUrl)
    (hnoa : dictFind
      (dictErase (dictErase (requestParams arguments) "a") "b")
      "a_hash" = none)
    (_hnob : dictFind
      (dictErase (dictErase (requestParams arguments) "a") "b")
      "b_hash" = none)
    (hcall : caller func (fetch aUrl) (fetch bUrl)
        ((dictErase (dictErase (requestParams arguments) "a") "b").map
          (fun kv => (kv.1, Value.str kv.2))) = Except.ok r) :
    DiffHandler_get differs fetch dname arguments =
      (HandlerResult.success [("diff", r)],
       [Event.fetch aUrl, Event.fetch bUrl, Event.invoke func.name]) ∧
    ∀ (differs' : List (String × Differ))
      (fetch' : String → HTTPResponse) (dname' : String)
      (arguments' : List (String × List String)),
      (∃ w tr, DiffHandler_get differs' fetch' dname' arguments' =
        (HandlerResult.success [("diff", w)], tr)) ∨
      (∃ st reason tr, DiffHandler_get differs' fetch' dname' arguments' =
        (HandlerResult.error st reason, tr)) ∨
      (∃ e tr, DiffHandler_get differs' fetch' dname' arguments' =
        (HandlerResult.pyerror e, tr)) := by
  constructor
  · unfold DiffHandler_get
    rw [hfunc]
    simp only [dictPop, ha, hb]
    rw [hashValidateStep_skip (fetch aUrl) _ hnoa]
    simp only []
    rw [hashValidateStep_skip (fetch bUrl) _ hnoa]
    simp only [hcall]
    simp
  · exact fun d' f' n' a' => DiffHandler_get_cases d' f' n' a'

/-- C8 witness: a concrete valid request without hashes. -/
theorem C8_success_writes_diff_witness :
    caller constDiffer emptyBodyResp emptyBodyResp [] =
      Except.ok (Value.str "ok") ∧
    DiffHandler_get [("const", constDiffer)] (fun _ => emptyBodyResp)
        "const" [("a", ["u"]), ("b", ["v"])] =
      (HandlerResult.success [("diff", Value.str "ok")],
       [Event.fetch "u", Event.fetch "v", Event.invoke "const"]) :=
  ⟨rfl,
   (C8_success_writes_diff [("const", constDiffer)]
     (fun _ => emptyBodyResp) "const" [("a", ["u"]), ("b", ["v"])]
     constDiffer "u" "v" (Value.str "ok") rfl rfl rfl rfl rfl rfl).1⟩

/-- C10: after the integrity-validation phase the key `a_hash` has been
removed from the request parameters (whether or not it was supplied),
while a supplied `b_hash` remains; it is therefore forwarded to the
Argument Binder as a candidate comparison argument, and any comparison
callable declaring a parameter named `b_hash` receives the
client-supplied hash string as its bound value. -/
theorem C10_b_hash_forwarded (res_a res_b : HTTPResponse)
    (qp : List (String × String)) (hb : String)
    (hbh : dictFind qp "b_hash" = some hb) :
    dictFind (hashValidateStep res_b (hashValidateStep res_a qp).1).1
      "a_hash" = none ∧
    dictFind (hashValidateStep res_b (hashValidateStep res_a qp).1).1
      "b_hash" = some hb ∧
    ∀ (func : Differ) (qp' kwargs : List (String × Value)),
      supplementParams res_a res_b
          (((hashValidateStep res_b (hashValidateStep res_a qp).1).1).map
            (fun kv => (kv.1, Value.str kv.2))) = Except.ok qp' →
      "b_hash" ∈ func.params.map Prod.fst →
      bindLoop func.name qp' func.params [] = Except.ok kwargs →
      dictFind kwargs "b_hash" = some (Value.str hb) := by
  have h2 : dictFind (hashValidateStep res_b
      (hashValidateStep res_a qp).1).1 "b_hash" = some hb := by
    rw [hashValidateStep_find_ne res_b _ _ (by decide),
      hashValidateStep_find_ne res_a _ _ (by decide)]
    exact hbh
  refine ⟨hashValidateStep_a_hash_none res_b _, h2,
    fun func qp' kwargs hsupp hmem hbind => ?_⟩
  have hmap : dictFind
      (((hashValidateStep res_b (hashValidateStep res_a qp).1).1).map
        (fun kv => (kv.1, Value.str kv.2))) "b_hash" =
      some (Value.str hb) := by
    rw [dictFind_mapValues, h2]
    rfl
  have hq' : dictFind qp' "b_hash" = some (Value.str hb) :=
    supplementParams_preserve res_a res_b _ qp' "b_hash" _ hmap hsupp
  exact bindLoop_binds func.name qp' func.params [] kwargs "b_hash" _
    rfl hmem hq' hbind

/-- C10 witness: a concrete request supplying only `b_hash=f00`. -/
theorem C10_b_hash_forwarded_witness :
    dictFind [("b_hash", "f00")] "b_hash" = some "f00" ∧
    dictFind (hashValidateStep emptyBodyResp
        (hashValidateStep emptyBodyResp [("b_hash", "f00")]).1).1
      "a_hash" = none ∧
    dictFind (hashValidateStep emptyBodyResp
        (hashValidateStep emptyBodyResp [("b_hash", "f00")]).1).1
      "b_hash" = some "f00" :=
  ⟨rfl,
   (C10_b_hash_forwarded emptyBodyResp emptyBodyResp
     [("b_hash", "f00")] "f00" rfl).1,
   (C10_b_hash_forwarded emptyBodyResp emptyBodyResp
     [("b_hash", "f00")] "f00" rfl).2.1⟩

/-- C9 witness: concrete identical runs. -/
theorem C9_deterministic_pipeline_witness :
    caller constDiffer emptyBodyResp emptyBodyResp [] =
      caller constDiffer emptyBodyResp emptyBodyResp [] ∧
    DiffHandler_get [("const", constDiffer)] (fun _ => emptyBodyResp)
        "const" [("a", ["u"]), ("b", ["v"])] =
      DiffHandler_get [("const", constDiffer)] (fun _ => emptyBodyResp)
        "const" [("a", ["u"]), ("b", ["v"])] :=
  C9_deterministic_pipeline constDiffer emptyBodyResp emptyBodyResp
    emptyBodyResp emptyBodyResp [] [("const", constDiffer)]
    (fun _ => emptyBodyResp) (fun _ => emptyBodyResp) "const"
    [("a", ["u"]), ("b", ["v"])] ⟨rfl, rfl, rfl⟩ ⟨rfl, rfl, rfl⟩
    (fun _ => rfl)

end DiffingServer
